import Mathlib

/-!
Shallow embedding of the `aladin3` Matchbook trading system
(`config.py`, `matchbook_api.py`, `bot.py`, `app.py`).

Python floats are modelled as rationals (`ℚ`); `round(x, 2)` is modelled by
`round2` below (`⌊x·100 + 1/2⌋ / 100`; no tie in this development depends on
Python's round-half-to-even tie rule).  Network I/O is modelled by passing the
fetched data (and a success flag for each fetch) as explicit parameters, and
by a stream of submit-call results consumed in call order.
-/

namespace Aladin3

/-! ### config.py -/

def PHASE1_MIN : ℚ := 25
def PHASE1_MAX : ℚ := 200
def PHASE2_MIN : ℚ := 200

def TICKS_DISCOUNT : ℤ := 2
def STAKE_PCT_PHASE1 : ℚ := 3 / 100
def MIN_STAKE : ℚ := 1
def MAX_STAKE_PHASE1 : ℚ := 5

def STAKE_PCT_PHASE2 : ℚ := 2 / 100
def MAX_STAKE_PHASE2 : ℚ := 20

/-! ### Python `round(x, 2)` -/

/-- Python's `round(x, 2)`: round to 2 decimal places. -/
def round2 (q : ℚ) : ℚ := (⌊q * 100 + 1 / 2⌋ : ℚ) / 100

/-! ### matchbook_api.py — module-level helpers -/

/-- Offer side; Python passes the strings `"back"` / `"lay"`
(`add_ticks_to_odds` treats every non-`"back"` side as lay). -/
inductive Side where
  | back
  | lay
deriving DecidableEq, Repr

/--
`add_ticks_to_odds(odds, ticks, side)` from `matchbook_api.py`:
returns `odds` unchanged when `odds < 1.01`; otherwise picks the tick size
(default 0.01, overridden by the `if/elif` ladder) and moves `odds` by
`ticks * tick_size`, up for back and down otherwise, rounded to 2 decimals.
-/
def add_ticks_to_odds (odds : ℚ) (ticks : ℤ) (side : Side) : ℚ :=
  if odds < 101 / 100 then odds
  else
    let tick_size : ℚ :=
      if 2 ≤ odds ∧ odds < 3 then 2 / 100
      else if 3 ≤ odds ∧ odds < 4 then 5 / 100
      else if 4 ≤ odds ∧ odds < 6 then 1 / 10
      else if 6 ≤ odds then 2 / 10
      else 1 / 100
    match side with
    | .back => round2 (odds + ticks * tick_size)
    | .lay => round2 (odds - ticks * tick_size)

/-- `lay_liability(lay_stake, lay_odds) = lay_stake * (lay_odds - 1)`. -/
def lay_liability (lay_stake lay_odds : ℚ) : ℚ := lay_stake * (lay_odds - 1)

/-- `greening_up_lay_stake(back_stake, back_odds, lay_odds)`:
`0` when `lay_odds <= 0`, else `(back_stake * back_odds) / lay_odds`. -/
def greening_up_lay_stake (back_stake back_odds lay_odds : ℚ) : ℚ :=
  if lay_odds ≤ 0 then 0 else back_stake * back_odds / lay_odds

/-! ### bot.py — phase and stake -/

/-- `get_phase(balance)` from `bot.py`. -/
def get_phase (balance : ℚ) : ℕ :=
  if PHASE1_MIN ≤ balance ∧ balance < PHASE1_MAX then 1
  else if balance ≥ PHASE2_MIN then 2
  else 1

/-- The effective phase chosen in `bot.py`'s `main` loop:
`1 if db.is_force_phase1() else get_phase(balance)`. -/
def effective_phase (force_phase1 : Bool) (balance : ℚ) : ℕ :=
  if force_phase1 then 1 else get_phase balance

/-- `get_stake(balance, phase)` from `bot.py`:
`round(max(MIN_STAKE, min(balance * pct, max_stake)), 2)` with the
phase-1 constants for `phase == 1` and the phase-2 constants otherwise. -/
def get_stake (balance : ℚ) (phase : ℕ) : ℚ :=
  if phase = 1 then
    round2 (max MIN_STAKE (min (balance * STAKE_PCT_PHASE1) MAX_STAKE_PHASE1))
  else
    round2 (max MIN_STAKE (min (balance * STAKE_PCT_PHASE2) MAX_STAKE_PHASE2))

/-- The spec's `clamp(x, lo, hi)` (spec-side wording only). -/
def clamp (x lo hi : ℚ) : ℚ := max lo (min x hi)

/-- The spec's claimed ladder step for `tick_adjust` (spec-side wording only):
0.01 below 2.0, 0.02 in [2,3), 0.05 in [3,4), 0.1 in [4,6), 0.2 at/above 6. -/
def specTickStep (odds : ℚ) : ℚ :=
  if odds < 2 then 1 / 100
  else if odds < 3 then 2 / 100
  else if odds < 4 then 5 / 100
  else if odds < 6 then 1 / 10
  else 2 / 10

/-! ### matchbook_api.py — `MatchbookClient._request`

`_request` loops over `range(MAX_RETRIES)` issuing one HTTP request per
iteration.  We model the wire as a stream `resp : ℕ → ℕ` of status codes
(the i-th request issued by the process receives status `resp i`; network
timeouts are not modelled) and `login()` by a flag: `loginOk = true` means
`login()` succeeds, `false` means it raises `MatchbookAuthError`.
The result carries the outcome, the number of `login()` calls made, and the
index of the next unconsumed response. -/

def MAX_RETRIES : ℕ := 3

/-- Outcome of `_request`.  `apiError` is the `MatchbookAPIError` raised on a
`>= 400` status, `exhausted` the `MatchbookAPIError` raised after
`MAX_RETRIES` attempts, `authError` the `MatchbookAuthError` raised by
`login()`. -/
inductive ReqOutcome where
  | success
  | apiError (code : ℕ)
  | exhausted
  | authError
deriving DecidableEq, Repr

/-- Whether the surfaced exception is (an instance of) `MatchbookAuthError`.
Only `login()` raises that class; the `>= 400` branch raises the base class
`MatchbookAPIError`. -/
def ReqOutcome.isAuthError : ReqOutcome → Bool
  | .authError => true
  | _ => false

/-- `MatchbookClient._request(method, path, ..., retry_on_auth)`:
- status 401 with `retry_on_auth`: `login()` then one recursive call with
  `retry_on_auth=False`;
- status 429: back off and `continue` (consumes one of the `MAX_RETRIES`
  attempts);
- status `>= 400`: raise `MatchbookAPIError`;
- otherwise: return the body. -/
def request (loginOk : Bool) (resp : ℕ → ℕ) :
    Bool → ℕ → ℕ → ReqOutcome × ℕ × ℕ
  | _, 0, i => (.exhausted, 0, i)
  | retry_on_auth, a + 1, i =>
    if h : resp i = 401 ∧ retry_on_auth = true then
      if loginOk then
        ((request loginOk resp false MAX_RETRIES (i + 1)).1,
         (request loginOk resp false MAX_RETRIES (i + 1)).2.1 + 1,
         (request loginOk resp false MAX_RETRIES (i + 1)).2.2)
      else (.authError, 1, i + 1)
    else if resp i = 429 then request loginOk resp retry_on_auth a (i + 1)
    else if 400 ≤ resp i then (.apiError (resp i), 0, i + 1)
    else (.success, 0, i + 1)
termination_by retry_on_auth attempts _ => ((if retry_on_auth then 1 else 0 : ℕ), attempts)
decreasing_by
  all_goals first
    | (rw [h.2]; exact Prod.Lex.left _ _ (by norm_num))
    | exact Prod.Lex.right _ (Nat.lt_succ_self _)

/-! ### matchbook_api.py — `MatchbookClient.cancel_offers` -/

/-- The four query-parameter selectors of `cancel_offers`. -/
inductive CancelSelector where
  | offerIds
  | eventIds
  | marketIds
  | runnerIds
deriving DecidableEq, Repr

/-- The Python exceptions `cancel_offers` can raise before/at the DELETE:
`ValueError` is a builtin, not a subclass of `MatchbookAPIError`. -/
inductive PyErr where
  | valueError
  | matchbookAPIErr
deriving DecidableEq, Repr

/-- Whether `except MatchbookAPIError` catches the exception. -/
def PyErr.caughtByMatchbookAPIError : PyErr → Bool
  | .valueError => false
  | .matchbookAPIErr => true

/-- The DELETE `/edge/rest/v2/offers` request `cancel_offers` hands to
`_request`, with its query params. -/
structure DeleteRequest where
  params : List (CancelSelector × List ℤ)
deriving DecidableEq, Repr

/-- `MatchbookClient.cancel_offers(offer_ids, event_ids, market_ids,
runner_ids)`: builds `params` from the truthy (non-empty) arguments in
order, raises `ValueError` if `params` is empty, else issues the DELETE.
Python's `None` default and `[]` are both falsy, so both are `[]` here. -/
def cancel_offers (offer_ids event_ids market_ids runner_ids : List ℤ) :
    Except PyErr DeleteRequest :=
  let params : List (CancelSelector × List ℤ) :=
    (if offer_ids ≠ [] then [(.offerIds, offer_ids)] else []) ++
    (if event_ids ≠ [] then [(.eventIds, event_ids)] else []) ++
    (if market_ids ≠ [] then [(.marketIds, market_ids)] else []) ++
    (if runner_ids ≠ [] then [(.runnerIds, runner_ids)] else [])
  if params = [] then .error .valueError
  else .ok ⟨params⟩

/-! ### Market data model (events / markets / runners / prices, offers)

JSON objects returned by the exchange, with the fields the code reads.
A missing or zero `decimal-odds`/`odds` is Python-falsy; `odds = 0` models
that case. -/

structure Price where
  side : Side
  odds : ℚ
deriving DecidableEq, Repr

structure Runner where
  id : ℤ
  prices : List Price
deriving DecidableEq, Repr

structure Market where
  id : ℤ
  runners : List Runner
deriving DecidableEq, Repr

structure Event where
  id : ℤ
  markets : List Market
deriving DecidableEq, Repr

/-- Offer `status` values the code compares against. -/
inductive OfferStatus where
  | open_
  | matched
  | delayed
  | failed
  | cancelled
deriving DecidableEq, Repr

/-- An offer object as returned by `GET /edge/rest/v2/offers`. -/
structure Offer where
  id : ℤ
  side : Side
  status : OfferStatus
  odds : ℚ
  stake : ℚ
  eventId : ℤ
  marketId : ℤ
  runnerId : ℤ
deriving DecidableEq, Repr

/-! ### bot.py — `get_best_prices` -/

/-- `get_best_prices(runner)` from `bot.py`: scans the runner's prices,
skipping falsy odds, keeping the highest back and the lowest lay odds. -/
def get_best_prices (r : Runner) : Option ℚ × Option ℚ :=
  r.prices.foldl
    (fun (acc : Option ℚ × Option ℚ) p =>
      if p.odds = 0 then acc
      else
        match p.side with
        | .back =>
          match acc.1 with
          | none => (some p.odds, acc.2)
          | some b => if p.odds > b then (some p.odds, acc.2) else acc
        | .lay =>
          match acc.2 with
          | none => (acc.1, some p.odds)
          | some l => if p.odds < l then (acc.1, some p.odds) else acc)
    (none, none)

/-! ### bot.py — `run_phase1`

I/O is passed in explicitly: each fetch is a success flag plus the data the
exchange would return, and `subs` is the stream of `submit_offers` results
(`subs k` is the result of the k-th `submit_offers` call of the cycle;
`.error ()` models a raised `MatchbookAPIError`).  A submit result is the
list of statuses of the offers in the response body. -/

/-- The greening lay lookup in `run_phase1`'s matched-offer loop: scan events
with the offer's `event-id`, their markets with the offer's `market-id`, and
take `get_best_prices` of the first runner with the offer's `runner-id`
(later matching markets overwrite earlier assignments, as in the Python
loops). -/
def find_green_up_lay (events : List Event) (eventId marketId runnerId : ℤ) :
    Option ℚ :=
  events.foldl
    (fun acc ev =>
      if ev.id = eventId then
        ev.markets.foldl
          (fun acc2 mkt =>
            if mkt.id = marketId then
              match mkt.runners.find? (fun r => r.id = runnerId) with
              | some r => (get_best_prices r).2
              | none => acc2
            else acc2)
          acc
      else acc)
    none

/-- The matched-offer (green-up) loop of `run_phase1`: for each fetched offer
with side back and status matched, look up the current best lay; skip when it
is missing or `<= 0`, when the greening stake is `< 0.5`, or when free funds
do not cover the lay liability; otherwise issue a `submit_offers` call (whose
result only feeds logging and the trade log, not control flow).  Returns the
number of green-up submit calls issued. -/
def green_up_loop (events : List Event) (free_funds : ℚ) :
    List Offer → ℕ → ℕ
  | [], k => k
  | offer :: rest, k =>
    if offer.side = .back ∧ offer.status = .matched then
      match find_green_up_lay events offer.eventId offer.marketId offer.runnerId with
      | none => green_up_loop events free_funds rest k
      | some best_lay =>
        if best_lay ≤ 0 then green_up_loop events free_funds rest k
        else
          let lay_stake := greening_up_lay_stake offer.stake offer.odds best_lay
          if lay_stake < 1 / 2 then green_up_loop events free_funds rest k
          else if free_funds < lay_liability lay_stake best_lay then
            green_up_loop events free_funds rest k
          else green_up_loop events free_funds rest (k + 1)
    else green_up_loop events free_funds rest k

/-- All runners of all markets of all events, in iteration order.  The Python
triple loop `for ev in events: for mkt in ...: for r in ...` with its
`placed_this_cycle` breaks is this flattened traversal stopped at the first
placement. -/
def runners_of (events : List Event) : List Runner :=
  events.flatMap fun ev => ev.markets.flatMap fun mkt => mkt.runners

/-- The new-Back loop of `run_phase1`: for each runner (until one Back is
placed) take best prices, skip runners without both sides or with
`best_back < 1.5` or `> 10.0`; compute the discounted odds
(`best_back + TICKS_DISCOUNT` ticks, falling back to 1 tick when that does
not increase the odds); issue `submit_offers` (call index `k`), and mark
`placed_this_cycle` when a returned offer status is open/matched/delayed
(a raised `MatchbookAPIError` is logged and the loop continues).
Returns the next call index and the placed flag. -/
def back_loop (stake : ℚ) (subs : ℕ → Except Unit (List OfferStatus)) :
    List Runner → ℕ → Bool → ℕ × Bool
  | [], k, placed => (k, placed)
  | r :: rest, k, placed =>
    if placed then (k, placed)
    else
      match get_best_prices r with
      | (some best_back, some _best_lay) =>
        if best_back < 3 / 2 ∨ best_back > 10 then back_loop stake subs rest k placed
        else
          let odds0 := add_ticks_to_odds best_back TICKS_DISCOUNT .back
          let back_odds := if odds0 ≤ best_back then add_ticks_to_odds best_back 1 .back else odds0
          let _submitted_odds := back_odds
          let placed2 :=
            match subs k with
            | .ok statuses =>
              statuses.any fun st => st = .open_ ∨ st = .matched ∨ st = .delayed
            | .error _ => false
          back_loop stake subs rest (k + 1) placed2
      | _ => back_loop stake subs rest k placed

/-- Inputs of one `run_phase1` cycle: the account numbers, each fetch's
outcome (`...FetchOk = false` models a raised `MatchbookAPIError`) together
with the data the exchange holds, and the submit-result stream. -/
structure Phase1Env where
  balance : ℚ
  free_funds : ℚ
  eventsFetchOk : Bool
  events : List Event
  matchedFetchOk : Bool
  matchedOffers : List Offer
  openFetchOk : Bool
  openOffers : List Offer
  subs : ℕ → Except Unit (List OfferStatus)

/-- The observable order actions of one `run_phase1` cycle. -/
structure Phase1Actions where
  laySubmits : ℕ
  backSubmits : ℕ
deriving DecidableEq, Repr

/-- `run_phase1(client, balance)` from `bot.py`:
- return if `balance < MIN_STAKE`;
- `stake = get_stake(balance, 1)`, `can_place_back = free_funds >= stake`;
- events fetch: a raised error logs and returns; no events returns;
- matched-offers fetch: a raised error logs and returns;
- green-up loop over the matched offers;
- `if not can_place_back: return` (greening lays above still happened);
- open-offers fetch: on success, return when `>= 2` open offers; a raised
  error is swallowed by `except MatchbookAPIError: pass`;
- new-Back loop. -/
def run_phase1 (env : Phase1Env) : Phase1Actions :=
  if env.balance < MIN_STAKE then ⟨0, 0⟩
  else
    let stake := get_stake env.balance 1
    let can_place_back := stake ≤ env.free_funds
    if env.eventsFetchOk = false then ⟨0, 0⟩
    else if env.events = [] then ⟨0, 0⟩
    else if env.matchedFetchOk = false then ⟨0, 0⟩
    else
      let layCount := green_up_loop env.events env.free_funds env.matchedOffers 0
      if ¬ can_place_back then ⟨layCount, 0⟩
      else if env.openFetchOk = true ∧ 2 ≤ env.openOffers.length then ⟨layCount, 0⟩
      else
        let r := back_loop stake env.subs (runners_of env.events) layCount false
        ⟨layCount, r.1 - layCount⟩

/-! ### bot.py — `run_phase2` -/

/-- The quote loop of `run_phase2`: for each runner take best prices, skip
runners without both sides, with spread `< 0.02`, with `best_back < 1.2` or
`best_lay > 15.0`, or whose lay liability exceeds free funds; at the first
eligible runner issue one `submit_offers` call with the two-sided quote and
`return` (a raised `MatchbookAPIError` also `return`s, so at most one submit
call happens either way).  Returns the number of submit calls issued. -/
def quote_loop (stake free_funds : ℚ) : List Runner → ℕ
  | [] => 0
  | r :: rest =>
    match get_best_prices r with
    | (some best_back, some best_lay) =>
      if best_lay - best_back < 2 / 100 then quote_loop stake free_funds rest
      else if best_back < 6 / 5 ∨ best_lay > 15 then quote_loop stake free_funds rest
      else if free_funds < lay_liability stake best_lay then quote_loop stake free_funds rest
      else 1
    | _ => quote_loop stake free_funds rest

/-- Inputs of one `run_phase2` cycle.  `offers` is what
`get_offers(status="open,matched")` returns when `offersFetchOk`. -/
structure Phase2Env where
  balance : ℚ
  free_funds : ℚ
  eventsFetchOk : Bool
  events : List Event
  offersFetchOk : Bool
  offers : List Offer

/-- The observable order actions of one `run_phase2` cycle. -/
structure Phase2Actions where
  cancelCalls : ℕ
  submitCalls : ℕ
deriving DecidableEq, Repr

/-- `run_phase2(client, balance)` from `bot.py`:
- return if `balance < PHASE2_MIN`;
- events fetch: a raised error logs and returns; no events returns;
- open,matched-offers fetch: a raised error logs and returns;
- with a matched offer and open offers, one `cancel_offers` call (its
  failure is only logged);
- `if open_offer_ids or len(matched_offer_ids) >= 2: return` — no new quote;
- otherwise the quote loop. -/
def run_phase2 (env : Phase2Env) : Phase2Actions :=
  if env.balance < PHASE2_MIN then ⟨0, 0⟩
  else if env.eventsFetchOk = false then ⟨0, 0⟩
  else if env.events = [] then ⟨0, 0⟩
  else if env.offersFetchOk = false then ⟨0, 0⟩
  else
    let matched_offer_ids : List ℤ :=
      (env.offers.filter fun o => o.status = .matched).map (fun o => o.id)
    let open_offer_ids : List ℤ :=
      (env.offers.filter fun o => o.status = .open_).map (fun o => o.id)
    let cancelCalls := if matched_offer_ids ≠ [] ∧ open_offer_ids ≠ [] then 1 else 0
    if open_offer_ids ≠ [] ∨ 2 ≤ matched_offer_ids.length then ⟨cancelCalls, 0⟩
    else
      ⟨cancelCalls, quote_loop (get_stake env.balance 2) env.free_funds (runners_of env.events)⟩

/-! ### app.py — `panic_hedge` -/

/-- `events_by_id = {e["id"]: e for e in events}` followed by
`events_by_id.get(event_id)`: on duplicate ids the last event wins. -/
def events_by_id_get (events : List Event) (eventId : ℤ) : Option Event :=
  events.foldl (fun acc ev => if ev.id = eventId then some ev else acc) none

/-- The first price of the given side in a runner's price list
(`for p in prices: if p["side"] == s: ...; break`), or `none`. -/
def first_price_of_side (r : Runner) (s : Side) : Option ℚ :=
  match r.prices.find? (fun p => p.side = s) with
  | some p => some p.odds
  | none => none

/-- `panic_hedge`'s best-lay lookup for a matched back offer: the event from
`events_by_id`, its markets filtered by the offer's `market-id`, the first
runner with the offer's `runner-id`, and that runner's first lay price. -/
def hedge_best_lay (events : List Event) (o : Offer) : Option ℚ :=
  match events_by_id_get events o.eventId with
  | none => none
  | some ev =>
    ev.markets.foldl
      (fun acc mkt =>
        if mkt.id = o.marketId then
          match mkt.runners.find? (fun r => r.id = o.runnerId) with
          | some r => first_price_of_side r .lay
          | none => acc
        else acc)
      none

/-- `panic_hedge`'s best-back lookup for a matched lay offer: as
`hedge_best_lay`, except the Python loop has no `market-id` filter, so every
market of the event is scanned. -/
def hedge_best_back (events : List Event) (o : Offer) : Option ℚ :=
  match events_by_id_get events o.eventId with
  | none => none
  | some ev =>
    ev.markets.foldl
      (fun acc mkt =>
        match mkt.runners.find? (fun r => r.id = o.runnerId) with
        | some r => first_price_of_side r .back
        | none => acc)
      none

/-- The hedging loop of `panic_hedge`: for each matched offer whose
offsetting price is present and truthy (`!= 0`), one `submit_offers` call is
issued (`subs n` is the n-th call's result).  The calls run inside the one
big `try`, so a raised `MatchbookAPIError` aborts the loop and the whole
call.  Returns `(no exception raised, submit calls issued)`. -/
def hedge_loop (events : List Event) (subs : ℕ → Except Unit Unit) :
    List Offer → ℕ → Bool × ℕ
  | [], n => (true, n)
  | o :: rest, n =>
    match o.side with
    | .back =>
      match hedge_best_lay events o with
      | some best_lay =>
        if best_lay ≠ 0 then
          let _lay_stake := greening_up_lay_stake o.stake o.odds best_lay
          match subs n with
          | .ok _ => hedge_loop events subs rest (n + 1)
          | .error _ => (false, n + 1)
        else hedge_loop events subs rest n
      | none => hedge_loop events subs rest n
    | .lay =>
      match hedge_best_back events o with
      | some best_back =>
        if best_back ≠ 0 then
          let _back_close_stake := greening_up_lay_stake o.stake o.odds best_back
          match subs n with
          | .ok _ => hedge_loop events subs rest (n + 1)
          | .error _ => (false, n + 1)
        else hedge_loop events subs rest n
      | none => hedge_loop events subs rest n

/-- Inputs of one `panic_hedge` call: login outcome, both fetch outcomes with
the exchange data, and the submit-result stream. -/
structure HedgeEnv where
  loginOk : Bool
  offersFetchOk : Bool
  offers : List Offer
  eventsFetchOk : Bool
  events : List Event
  subs : ℕ → Except Unit Unit

/-- What a `panic_hedge` call returns and did: the boolean of the returned
`(success, message)` pair and the number of submit calls issued. -/
structure HedgeResult where
  ok : Bool
  submitCalls : ℕ
deriving DecidableEq, Repr

/-- `panic_hedge()` from `app.py`:
- `(False, ...)` without any fetch when login fails;
- one `try` wraps everything else: the matched-offers fetch, the events
  fetch, and every hedging `submit_offers`; `except MatchbookAPIError`
  (and `except Exception`) turn any raise into `(False, str(e))`;
- no matched offers short-circuits to `(True, ...)` before the events
  fetch. -/
def panic_hedge (env : HedgeEnv) : HedgeResult :=
  if env.loginOk = false then ⟨false, 0⟩
  else if env.offersFetchOk = false then ⟨false, 0⟩
  else
    let matched := env.offers.filter fun o => o.status = .matched
    if matched = [] then ⟨true, 0⟩
    else if env.eventsFetchOk = false then ⟨false, 0⟩
    else
      let r := hedge_loop env.events env.subs matched 0
      ⟨r.1, r.2⟩

/-! ### Shared helper lemmas -/

theorem round2_mono {a b : ℚ} (h : a ≤ b) : round2 a ≤ round2 b := by
  unfold round2
  have hf : ⌊a * 100 + 1 / 2⌋ ≤ ⌊b * 100 + 1 / 2⌋ := Int.floor_le_floor (by linarith)
  have hq : (⌊a * 100 + 1 / 2⌋ : ℚ) ≤ (⌊b * 100 + 1 / 2⌋ : ℚ) := by exact_mod_cast hf
  linarith

/-! ### Claims -/

/-- C1: for `back_odds, lay_odds > 1`, `greening_up_lay_stake` equals
`(back_stake * back_odds) / lay_odds`, and a lay of that stake at `lay_odds`
against a matched back of `back_stake` at `back_odds` nets the same profit
whether the backed outcome wins or loses:
`back_stake*(back_odds-1) - lay_stake*(lay_odds-1) = lay_stake - back_stake`
(exactly, over ℚ); for `lay_odds ≤ 0` the function returns 0. -/
theorem C1_greening_up_lay_stake (back_stake back_odds lay_odds : ℚ)
    (_hb : 1 < back_odds) (hl : 1 < lay_odds) :
    greening_up_lay_stake back_stake back_odds lay_odds =
      back_stake * back_odds / lay_odds ∧
    back_stake * (back_odds - 1) -
        greening_up_lay_stake back_stake back_odds lay_odds * (lay_odds - 1) =
      greening_up_lay_stake back_stake back_odds lay_odds - back_stake ∧
    (∀ lo : ℚ, lo ≤ 0 → greening_up_lay_stake back_stake back_odds lo = 0) := by
  have h0 : ¬ lay_odds ≤ 0 := by linarith
  have hne : lay_odds ≠ 0 := by linarith
  refine ⟨by simp [greening_up_lay_stake, h0], ?_, ?_⟩
  · simp only [greening_up_lay_stake, h0, if_false]
    field_simp
    ring
  · intro lo hlo
    simp [greening_up_lay_stake, hlo]

/-- Witness for C1 at `back_stake = 10`, `back_odds = 2`, `lay_odds = 2`. -/
theorem C1_greening_up_lay_stake_witness :
    greening_up_lay_stake 10 2 2 = 10 * 2 / 2 ∧
    10 * (2 - 1) - greening_up_lay_stake 10 2 2 * (2 - 1) =
      greening_up_lay_stake 10 2 2 - 10 ∧
    (∀ lo : ℚ, lo ≤ 0 → greening_up_lay_stake 10 2 lo = 0) :=
  C1_greening_up_lay_stake 10 2 2 (by norm_num) (by norm_num)

/-- C7: the effective phase is 1 whenever `force_phase1` is set; otherwise
phase 1 for `25 ≤ B < 200`, phase 2 for `B ≥ 200`, phase 1 for `B < 25`;
with the spec's five example points. -/
theorem C7_phase_selection (B : ℚ) :
    effective_phase true B = 1 ∧
    (25 ≤ B → B < 200 → effective_phase false B = 1) ∧
    (200 ≤ B → effective_phase false B = 2) ∧
    (B < 25 → effective_phase false B = 1) ∧
    effective_phase false (2499 / 100) = 1 ∧
    effective_phase false 25 = 1 ∧
    effective_phase false (19999 / 100) = 1 ∧
    effective_phase false 200 = 2 ∧
    effective_phase true 500 = 1 := by
  have hgen : ∀ C : ℚ,
      (25 ≤ C → C < 200 → effective_phase false C = 1) ∧
      (200 ≤ C → effective_phase false C = 2) ∧
      (C < 25 → effective_phase false C = 1) := by
    intro C
    refine ⟨fun h1 h2 => ?_, fun h => ?_, fun h => ?_⟩ <;>
      simp only [effective_phase, get_phase, PHASE1_MIN, PHASE1_MAX, PHASE2_MIN,
        if_false, Bool.false_eq_true] <;>
      split_ifs <;> first | rfl | (exfalso; tauto) | (exfalso; push_neg at *; linarith)
  refine ⟨rfl, (hgen B).1, (hgen B).2.1, (hgen B).2.2, ?_, ?_, ?_, ?_, rfl⟩
  · exact (hgen _).2.2 (by norm_num)
  · exact (hgen _).1 (by norm_num) (by norm_num)
  · exact (hgen _).1 (by norm_num) (by norm_num)
  · exact (hgen _).2.1 (by norm_num)

/-- Witness for C7 at `B = 100`. -/
theorem C7_phase_selection_witness : effective_phase false 100 = 1 :=
  (C7_phase_selection 100).2.1 (by norm_num) (by norm_num)

/-- C10: `cancel_offers` with all selectors absent/empty raises `ValueError`
before issuing any request, and `ValueError` is not caught by
`except MatchbookAPIError`; with any non-empty selector no `ValueError` is
raised and the DELETE request is issued. -/
theorem C10_cancel_offers (o e m r : List ℤ) :
    (o = [] → e = [] → m = [] → r = [] →
      cancel_offers o e m r = .error .valueError ∧
      PyErr.caughtByMatchbookAPIError .valueError = false) ∧
    ((o ≠ [] ∨ e ≠ [] ∨ m ≠ [] ∨ r ≠ []) →
      ∃ req : DeleteRequest, cancel_offers o e m r = .ok req) := by
  constructor
  · rintro rfl rfl rfl rfl
    exact ⟨by simp [cancel_offers], rfl⟩
  · intro h
    by_cases ho : o = [] <;> by_cases he : e = [] <;> by_cases hm : m = [] <;>
      by_cases hr : r = [] <;> simp_all [cancel_offers]

/-- Witness for C10: empty selectors raise `ValueError`; a single offer id
issues the DELETE. -/
theorem C10_cancel_offers_witness :
    cancel_offers [] [] [] [] = .error .valueError ∧
    ∃ req : DeleteRequest, cancel_offers [5] [] [] [] = .ok req :=
  ⟨((C10_cancel_offers [] [] [] []).1 rfl rfl rfl rfl).1,
   (C10_cancel_offers [5] [] [] []).2 (Or.inl (by simp))⟩

/-- C8 counterexample: the claim says Phase 1 uses a smaller stake
percentage than Phase 2, but `STAKE_PCT_PHASE1 = 0.03 > 0.02 =
STAKE_PCT_PHASE2`: at balance 100 the Phase 1 stake (3) exceeds the
Phase 2 stake (2). -/
theorem C8_pct_counterexample :
    ¬ STAKE_PCT_PHASE1 < STAKE_PCT_PHASE2 ∧
    get_stake 100 1 = 3 ∧ get_stake 100 2 = 2 := by
  refine ⟨by norm_num [STAKE_PCT_PHASE1, STAKE_PCT_PHASE2], ?_, ?_⟩ <;>
    norm_num [get_stake, round2, MIN_STAKE, STAKE_PCT_PHASE1, STAKE_PCT_PHASE2,
      MAX_STAKE_PHASE1, MAX_STAKE_PHASE2]

/-- C8 (amended): `get_stake(B, p)` is `clamp(B * pct[p], MIN_STAKE,
MAX_STAKE[p])` rounded to 2 decimals and always lies in
`[MIN_STAKE, MAX_STAKE[p]]`; Phase 1 uses a larger percentage (3% vs 2%)
but a smaller ceiling (5 vs 20) than Phase 2. -/
theorem C8_stake_sizing (B : ℚ) (p : ℕ) (hp : p = 1 ∨ p = 2) :
    get_stake B 1 = round2 (clamp (B * STAKE_PCT_PHASE1) MIN_STAKE MAX_STAKE_PHASE1) ∧
    get_stake B 2 = round2 (clamp (B * STAKE_PCT_PHASE2) MIN_STAKE MAX_STAKE_PHASE2) ∧
    MIN_STAKE ≤ get_stake B p ∧
    get_stake B p ≤ (if p = 1 then MAX_STAKE_PHASE1 else MAX_STAKE_PHASE2) ∧
    STAKE_PCT_PHASE2 < STAKE_PCT_PHASE1 ∧
    MAX_STAKE_PHASE1 < MAX_STAKE_PHASE2 := by
  have h1 : round2 (1 : ℚ) = 1 := by norm_num [round2]
  have h5 : round2 (5 : ℚ) = 5 := by norm_num [round2]
  have h20 : round2 (20 : ℚ) = 20 := by norm_num [round2]
  have bound : ∀ x hi : ℚ, round2 hi = hi → 1 ≤ hi →
      1 ≤ round2 (max 1 (min x hi)) ∧ round2 (max 1 (min x hi)) ≤ hi := by
    intro x hi hhi h1hi
    constructor
    · calc (1 : ℚ) = round2 1 := h1.symm
        _ ≤ round2 (max 1 (min x hi)) := round2_mono (le_max_left _ _)
    · calc round2 (max 1 (min x hi)) ≤ round2 hi :=
          round2_mono (max_le h1hi (min_le_right _ _))
        _ = hi := hhi
  have g1 : get_stake B 1 = round2 (max 1 (min (B * (3 / 100)) 5)) := by
    simp [get_stake, MIN_STAKE, STAKE_PCT_PHASE1, MAX_STAKE_PHASE1]
  have g2 : get_stake B 2 = round2 (max 1 (min (B * (2 / 100)) 20)) := by
    simp [get_stake, MIN_STAKE, STAKE_PCT_PHASE2, MAX_STAKE_PHASE2]
  refine ⟨by simp [get_stake, clamp], by simp [get_stake, clamp], ?_, ?_,
    by norm_num [STAKE_PCT_PHASE1, STAKE_PCT_PHASE2],
    by norm_num [MAX_STAKE_PHASE1, MAX_STAKE_PHASE2]⟩
  · rcases hp with rfl | rfl
    · rw [g1, MIN_STAKE]
      exact (bound _ 5 h5 (by norm_num)).1
    · rw [g2, MIN_STAKE]
      exact (bound _ 20 h20 (by norm_num)).1
  · rcases hp with rfl | rfl
    · rw [if_pos rfl, g1, MAX_STAKE_PHASE1]
      exact (bound _ 5 h5 (by norm_num)).2
    · rw [if_neg (by norm_num), g2, MAX_STAKE_PHASE2]
      exact (bound _ 20 h20 (by norm_num)).2

/-- Witness for C8 at `B = 100`, `p = 1`. -/
theorem C8_stake_sizing_witness :
    MIN_STAKE ≤ get_stake 100 1 ∧ get_stake 100 1 ≤ MAX_STAKE_PHASE1 := by
  have h := C8_stake_sizing 100 1 (Or.inl rfl)
  exact ⟨h.2.2.1, by simpa using h.2.2.2.1⟩

/-- C9: for `odds ≥ 1.01`, `add_ticks_to_odds` moves the odds by
`ticks × step` with the claimed non-uniform step (0.01 below 2.0, 0.02 in
[2,3), 0.05 in [3,4), 0.1 in [4,6), 0.2 at/above 6), adding for back and
subtracting for lay, rounded to 2 decimals; odds below 1.01 are returned
unchanged; with the spec's three example points. -/
theorem C9_tick_adjust (odds : ℚ) (ticks : ℤ) :
    (101 / 100 ≤ odds →
      add_ticks_to_odds odds ticks .back = round2 (odds + ticks * specTickStep odds) ∧
      add_ticks_to_odds odds ticks .lay = round2 (odds - ticks * specTickStep odds)) ∧
    (odds < 101 / 100 → ∀ s : Side, add_ticks_to_odds odds ticks s = odds) ∧
    add_ticks_to_odds 2 2 .back = 51 / 25 ∧
    add_ticks_to_odds (3 / 2) 1 .lay = 149 / 100 ∧
    add_ticks_to_odds 1 5 .back = 1 := by
  have hstep : ∀ o : ℚ,
      (if 2 ≤ o ∧ o < 3 then (2 : ℚ) / 100
       else if 3 ≤ o ∧ o < 4 then 5 / 100
       else if 4 ≤ o ∧ o < 6 then 1 / 10
       else if 6 ≤ o then 2 / 10
       else 1 / 100) = specTickStep o := by
    intro o
    simp only [specTickStep]
    rcases lt_or_le o 2 with h1 | h1
    · rw [if_neg (fun c => by linarith [c.1]), if_neg (fun c => by linarith [c.1]),
        if_neg (fun c => by linarith [c.1]), if_neg (by linarith), if_pos h1]
    · rcases lt_or_le o 3 with h2 | h2
      · rw [if_pos ⟨h1, h2⟩, if_neg (by linarith), if_pos h2]
      · rcases lt_or_le o 4 with h3 | h3
        · rw [if_neg (fun c => by linarith [c.2]), if_pos ⟨h2, h3⟩,
            if_neg (by linarith), if_neg (by linarith), if_pos h3]
        · rcases lt_or_le o 6 with h4 | h4
          · rw [if_neg (fun c => by linarith [c.2]), if_neg (fun c => by linarith [c.2]),
              if_pos ⟨h3, h4⟩, if_neg (by linarith), if_neg (by linarith),
              if_neg (by linarith), if_pos h4]
          · rw [if_neg (fun c => by linarith [c.2]), if_neg (fun c => by linarith [c.2]),
              if_neg (fun c => by linarith [c.1, c.2]), if_pos h4,
              if_neg (by linarith), if_neg (by linarith), if_neg (by linarith),
              if_neg (by linarith)]
  refine ⟨?_, ?_, ?_, ?_, ?_⟩
  · intro h
    have hno : ¬ odds < 101 / 100 := not_lt.mpr h
    constructor <;> simp only [add_ticks_to_odds, hno, if_false, hstep odds]
  · intro h s
    cases s <;> simp [add_ticks_to_odds, h]
  · norm_num [add_ticks_to_odds, round2]
  · norm_num [add_ticks_to_odds, round2]
  · norm_num [add_ticks_to_odds]

/-- Witness for C9 at `odds = 3`, `ticks = 1` and `odds = 1/2`. -/
theorem C9_tick_adjust_witness :
    add_ticks_to_odds 3 1 .back = round2 (3 + 1 * specTickStep 3) ∧
    add_ticks_to_odds (1 / 2) 7 .lay = 1 / 2 :=
  ⟨((C9_tick_adjust 3 1).1 (by norm_num)).1,
   (C9_tick_adjust (1 / 2) 7).2.1 (by norm_num) .lay⟩

/-- C2 counterexample: with working credentials (re-login succeeds) and the
wire answering 401 twice, `_request` re-logs-in once, retries once, and then
surfaces the generic `MatchbookAPIError` raised by the `>= 400` branch —
not `MatchbookAuthError` as the claim states: the 401 on the retried call
(whose `retry_on_auth` is `False`) falls through to the generic handler. -/
theorem C2_second_401_counterexample :
    request true (fun _ => 401) true 3 0 = (.apiError 401, 1, 2) ∧
    ReqOutcome.isAuthError (.apiError 401) = false := by
  constructor
  · have inner : request true (fun _ => 401) false 3 1 = (.apiError 401, 0, 2) := by
      rw [request.eq_2]
      norm_num
    rw [request.eq_2]
    norm_num [MAX_RETRIES, inner]
  · rfl

/-- C2 (amended): a 401 on a call with `retry_on_auth` triggers exactly one
re-login and one retry — the retried call, with `retry_on_auth=False`, never
re-logs-in; if that retry receives a second 401 the client surfaces the
generic `MatchbookAPIError` (the 401 falls through to the `>= 400` branch),
not `MatchbookAuthError`; `MatchbookAuthError` surfaces exactly when the
re-login itself fails. -/
theorem C2_auth_retry (loginOk : Bool) (resp : ℕ → ℕ) (a i : ℕ)
    (h401 : resp i = 401) :
    (∀ k j, (request loginOk resp false k j).2.1 = 0) ∧
    (loginOk = true → resp (i + 1) = 401 →
      request loginOk resp true (a + 1) i = (.apiError 401, 1, i + 2) ∧
      ReqOutcome.isAuthError (.apiError 401) = false) ∧
    (loginOk = false →
      request loginOk resp true (a + 1) i = (.authError, 1, i + 1)) := by
  have hnologin : ∀ k j, (request loginOk resp false k j).2.1 = 0 := by
    intro k
    induction k with
    | zero =>
      intro j
      rw [request.eq_1]
    | succ n ih =>
      intro j
      rw [request.eq_2, dif_neg (by simp)]
      by_cases h429 : resp j = 429
      · rw [if_pos h429]
        exact ih (j + 1)
      · rw [if_neg h429]
        by_cases h400 : 400 ≤ resp j
        · rw [if_pos h400]
        · rw [if_neg h400]
  refine ⟨hnologin, ?_, ?_⟩
  · intro hlog h2
    subst hlog
    have hsecond : request true resp false MAX_RETRIES (i + 1) =
        (.apiError 401, 0, i + 2) := by
      rw [show MAX_RETRIES = 2 + 1 from rfl, request.eq_2, dif_neg (by simp),
        if_neg (by rw [h2]; norm_num), if_pos (by rw [h2]; norm_num), h2]
    rw [request.eq_2, dif_pos ⟨h401, rfl⟩, if_pos rfl, hsecond]
    exact ⟨rfl, rfl⟩
  · intro hlog
    subst hlog
    rw [request.eq_2, dif_pos ⟨h401, rfl⟩, if_neg (by simp)]

/-- Witness for C2 (amended) with every response 401 and a working login. -/
theorem C2_auth_retry_witness :
    request true (fun _ => 401) true 1 5 = (.apiError 401, 1, 7) :=
  (((C2_auth_retry true (fun _ => 401) 0 5 rfl).2.1 rfl rfl).1)

/-- C5: in any Phase 2 cycle where the open+matched offers fetch succeeds
and returns at least one open offer or at least two matched offers,
`run_phase2` issues no `submit_offers` call. -/
theorem C5_no_stacked_quotes (env : Phase2Env)
    (_hfetch : env.offersFetchOk = true)
    (h : (env.offers.filter fun o => o.status = .open_) ≠ [] ∨
      2 ≤ (env.offers.filter fun o => o.status = .matched).length) :
    (run_phase2 env).submitCalls = 0 := by
  simp only [run_phase2]
  have hsplit :
      (env.offers.filter fun o => o.status = .open_).map (fun o => o.id) ≠ [] ∨
      2 ≤ ((env.offers.filter fun o => o.status = .matched).map (fun o => o.id)).length := by
    rcases h with h | h
    · exact Or.inl (by simpa using h)
    · exact Or.inr (by simpa using h)
  split_ifs <;> first | rfl | exact absurd hsplit (by assumption)

/-- Witness for C5: one open offer reported by the fetch, no submit call. -/
theorem C5_no_stacked_quotes_witness :
    (run_phase2 ⟨0, 0, true, [], true, [⟨7, .back, .open_, 2, 1, 1, 1, 1⟩]⟩).submitCalls = 0 :=
  C5_no_stacked_quotes ⟨0, 0, true, [], true, [⟨7, .back, .open_, 2, 1, 1, 1, 1⟩]⟩
    rfl (Or.inl (by simp))

/-- C6 (amended): Phase 1 submits no new Back order in a cycle where the
open-offers fetch succeeds and reports two or more open offers; when that
fetch raises, `except MatchbookAPIError: pass` skips the guard. -/
theorem C6_no_back_with_open_offers (env : Phase1Env)
    (hfetch : env.openFetchOk = true) (h2 : 2 ≤ env.openOffers.length) :
    (run_phase1 env).backSubmits = 0 := by
  simp only [run_phase1]
  split_ifs <;> simp_all

/-- Witness for C6 (amended): a successful open-offers fetch reporting two
open offers suppresses the new Back. -/
theorem C6_no_back_with_open_offers_witness :
    (run_phase1 ⟨100, 100, true, [], true, [],
      true, [⟨21, .back, .open_, 2, 1, 1, 1, 1⟩, ⟨22, .back, .open_, 2, 1, 1, 1, 1⟩],
      fun _ => .ok [.open_]⟩).backSubmits = 0 :=
  C6_no_back_with_open_offers _ rfl (by simp)

/-- The single-runner market used by the C6 counterexample: best back 2.0,
best lay 2.1. -/
def c6Runner : Runner := ⟨1, [⟨.back, 2⟩, ⟨.lay, 21 / 10⟩]⟩

/-- The C6 counterexample cycle: two open offers exist on the exchange, but
the open-offers fetch raises. -/
def c6Env : Phase1Env where
  balance := 100
  free_funds := 100
  eventsFetchOk := true
  events := [⟨1, [⟨1, [c6Runner]⟩]⟩]
  matchedFetchOk := true
  matchedOffers := []
  openFetchOk := false
  openOffers := [⟨21, .back, .open_, 2, 1, 1, 1, 1⟩, ⟨22, .back, .open_, 2, 1, 1, 1, 1⟩]
  subs := fun _ => .ok [.open_]

/-- C6 counterexample: two open offers already exist on the exchange, but the
open-offers fetch raises, the guard is skipped, and the cycle still submits
a new Back order. -/
theorem C6_counterexample :
    2 ≤ c6Env.openOffers.length ∧ (run_phase1 c6Env).backSubmits = 1 := by
  constructor
  · simp [c6Env]
  · norm_num [run_phase1, c6Env, c6Runner, get_stake, round2, MIN_STAKE,
      STAKE_PCT_PHASE1, MAX_STAKE_PHASE1, green_up_loop, runners_of, back_loop,
      get_best_prices, add_ticks_to_odds, TICKS_DISCOUNT,
      List.foldl_cons, List.foldl_nil]

/-- C4 (amended): an exchange error during the events fetch or the
matched-offers fetch aborts the Phase 1 cycle entirely (no greening Lay, no
new Back); an error during the open-offers fetch is instead swallowed by
`except MatchbookAPIError: pass` and the cycle proceeds — it can still
submit a new Back order that cycle. -/
theorem C4_fetch_error_policy (env : Phase1Env) :
    (env.eventsFetchOk = false → run_phase1 env = ⟨0, 0⟩) ∧
    (env.matchedFetchOk = false → run_phase1 env = ⟨0, 0⟩) := by
  constructor <;> intro h <;> simp only [run_phase1] <;> split_ifs <;> simp_all

/-- Witness for C4 (amended): a failed events fetch yields no submissions. -/
theorem C4_fetch_error_policy_witness :
    run_phase1 ⟨100, 100, false, [], true, [], true, [], fun _ => .ok []⟩ = ⟨0, 0⟩ :=
  (C4_fetch_error_policy ⟨100, 100, false, [], true, [], true, [], fun _ => .ok []⟩).1 rfl

/-- The single-runner market used by the C4 counterexample. -/
def c4Runner : Runner := ⟨1, [⟨.back, 2⟩, ⟨.lay, 21 / 10⟩]⟩

/-- The C4 counterexample cycle: events and matched-offers fetches succeed,
the open-offers fetch raises. -/
def c4Env : Phase1Env where
  balance := 100
  free_funds := 100
  eventsFetchOk := true
  events := [⟨1, [⟨1, [c4Runner]⟩]⟩]
  matchedFetchOk := true
  matchedOffers := []
  openFetchOk := false
  openOffers := []
  subs := fun _ => .ok [.open_]

/-- C4 counterexample: a cycle in which a fetch (the open-offers fetch)
raises an exchange error and yet the cycle does not log-and-return: it still
submits a new Back order. -/
theorem C4_counterexample :
    c4Env.openFetchOk = false ∧ (run_phase1 c4Env).backSubmits = 1 := by
  constructor
  · rfl
  · norm_num [run_phase1, c4Env, c4Runner, get_stake, round2, MIN_STAKE,
      STAKE_PCT_PHASE1, MAX_STAKE_PHASE1, green_up_loop, runners_of, back_loop,
      get_best_prices, add_ticks_to_odds, TICKS_DISCOUNT,
      List.foldl_cons, List.foldl_nil]

/-- When every `submit_offers` call succeeds, the hedging loop raises
nothing. -/
theorem hedge_loop_ok_of_subs_ok (events : List Event)
    (subs : ℕ → Except Unit Unit) (hsubs : ∀ n, subs n = .ok ()) :
    ∀ (offers : List Offer) (n : ℕ), (hedge_loop events subs offers n).1 = true := by
  intro offers
  induction offers with
  | nil => intro n; rfl
  | cons o rest ih =>
    intro n
    cases hside : o.side <;> simp only [hedge_loop, hside]
    · cases hbl : hedge_best_lay events o
      · exact ih n
      · rename_i l
        dsimp only
        by_cases hz : l ≠ 0
        · rw [if_pos hz, hsubs n]
          exact ih (n + 1)
        · rw [if_neg hz]
          exact ih n
    · cases hbb : hedge_best_back events o
      · exact ih n
      · rename_i b
        dsimp only
        by_cases hz : b ≠ 0
        · rw [if_pos hz, hsubs n]
          exact ih (n + 1)
        · rw [if_neg hz]
          exact ih n

/-- The first lay price of runner 1 resp. 2 in the C3 counterexample's
single market. -/
def c3Event : Event := ⟨1, [⟨1, [⟨1, [⟨.lay, 21 / 10⟩]⟩, ⟨2, [⟨.lay, 3⟩]⟩]⟩]⟩

/-- A matched back offer on runner `rid` for the C3 counterexample. -/
def c3MatchedBack (oid rid : ℤ) : Offer := ⟨oid, .back, .matched, 2, 5, 1, 1, rid⟩

/-- The C3 counterexample call: two matched back positions with lay prices
available, and the first hedging submission raising `MatchbookAPIError`. -/
def c3Env : HedgeEnv where
  loginOk := true
  offersFetchOk := true
  offers := [c3MatchedBack 11 1, c3MatchedBack 12 2]
  eventsFetchOk := true
  events := [c3Event]
  subs := fun n => if n = 0 then .error () else .ok ()

/-- C3 counterexample: both fetches succeed, two matched offers need
hedging, and the first submission raises: `panic_hedge` surfaces the
submission error as the call's failure (`ok = false`) and the second matched
offer is never submitted (only 1 submit call, not 2) — the submission error
is not swallowed into a logged warning as the claim states. -/
theorem C3_counterexample :
    (c3Env.offers.filter fun o => o.status = .matched).length = 2 ∧
    panic_hedge c3Env = ⟨false, 1⟩ := by
  constructor
  · simp [c3Env, c3MatchedBack]
  · norm_num [panic_hedge, c3Env, c3MatchedBack, c3Event, hedge_loop,
      hedge_best_lay, events_by_id_get, first_price_of_side,
      List.foldl_cons, List.foldl_nil, List.find?] <;> simp

/-- C3 (amended): `panic_hedge` fails as a whole when a fetch-phase call
raises, and also when an individual hedging submission raises — the one
`try` block wraps fetches and submissions alike, so a submission error
surfaces as the call's failure and aborts the submissions for the remaining
matched offers; when no submission raises, the call succeeds. -/
theorem C3_hedge_error_policy (env : HedgeEnv) :
    (env.loginOk = true → env.offersFetchOk = false →
      panic_hedge env = ⟨false, 0⟩) ∧
    (env.loginOk = true → env.offersFetchOk = true → env.eventsFetchOk = false →
      (env.offers.filter fun o => o.status = .matched) ≠ [] →
      panic_hedge env = ⟨false, 0⟩) ∧
    (∀ events subs (o : Offer) rest n l, o.side = .back →
      hedge_best_lay events o = some l → l ≠ 0 → subs n = .error () →
      hedge_loop events subs (o :: rest) n = (false, n + 1)) ∧
    ((∀ n, env.subs n = .ok ()) → env.loginOk = true → env.offersFetchOk = true →
      env.eventsFetchOk = true → (panic_hedge env).ok = true) := by
  refine ⟨?_, ?_, ?_, ?_⟩
  · intro hl hf
    simp [panic_hedge, hl, hf]
  · intro hl hf he hm
    simp [panic_hedge, hl, hf, he, hm]
  · intro events subs o rest n l hside hbl hz hsub
    simp only [hedge_loop, hside, hbl]
    rw [if_pos hz, hsub]
  · intro hsubs hl hf he
    simp only [panic_hedge, hl, hf, he]
    split_ifs <;>
      first
        | rfl
        | simp_all [hedge_loop_ok_of_subs_ok env.events env.subs hsubs]

/-- Witness for C3 (amended): a failed matched-offers fetch fails the call
with no submissions. -/
theorem C3_hedge_error_policy_witness :
    panic_hedge ⟨true, false, [], true, [], fun _ => .ok ()⟩ = ⟨false, 0⟩ :=
  (C3_hedge_error_policy ⟨true, false, [], true, [], fun _ => .ok ()⟩).1 rfl rfl

end Aladin3
